import Mathlib

/-!
Verification development for the `turboinfra-agent` single-file demo
(`demo.py`): a six-stage pipeline
parser → profiler → planner → kernelgen → runner → scorer.

Shallow embedding conventions:
* Parsed JSON values (the result of `json.load`) are the inductive `Json`.
  A Python `dict` is `Json.obj` over an association list with distinct keys
  (the form `json.load` produces); `dict.get` is first-match lookup.
* Python floats in this program only ever hold small decimal constants and
  sums/products of them, so they are modelled as exact rationals `ℚ`.
* Exceptions are `Except PyErr`; an uncaught Python exception is `.error`.
* Filesystem writes are modelled by returning the (path, contents) pair;
  the external `nvcc` subprocess is modelled by a `SubprocessOutcome`
  parameter describing what `subprocess.run` would do.
-/

namespace Demo

/-- A parsed JSON value, as produced by Python's `json.load`. -/
inductive Json where
  | null
  | bool (b : Bool)
  | num (q : ℚ)
  | str (s : String)
  | arr (elems : List Json)
  | obj (fields : List (String × Json))

mutual

/-- Boolean equality test on `Json`, used to furnish decidable equality
(the derive handler cannot treat the nested `List Json`). -/
def Json.beq : Json → Json → Bool
  | Json.null, Json.null => true
  | Json.bool a, Json.bool b => a == b
  | Json.num a, Json.num b => a == b
  | Json.str a, Json.str b => a == b
  | Json.arr as, Json.arr bs => Json.beqArr as bs
  | Json.obj as, Json.obj bs => Json.beqObj as bs
  | _, _ => false

/-- Elementwise `Json.beq` on array elements. -/
def Json.beqArr : List Json → List Json → Bool
  | [], [] => true
  | a :: as, b :: bs => Json.beq a b && Json.beqArr as bs
  | _, _ => false

/-- Elementwise key/value `Json.beq` on object fields. -/
def Json.beqObj : List (String × Json) → List (String × Json) → Bool
  | [], [] => true
  | (k, v) :: as, (k2, v2) :: bs =>
      k == k2 && Json.beq v v2 && Json.beqObj as bs
  | _, _ => false

end

mutual

theorem Json.beq_iff_eq : ∀ a b : Json, Json.beq a b = true ↔ a = b
  | Json.null, Json.null => by simp [Json.beq]
  | Json.bool a, Json.bool b => by simp [Json.beq]
  | Json.num a, Json.num b => by simp [Json.beq]
  | Json.str a, Json.str b => by simp [Json.beq]
  | Json.arr as, Json.arr bs => by
      simpa [Json.beq] using Json.beqArr_iff_eq as bs
  | Json.obj as, Json.obj bs => by
      simpa [Json.beq] using Json.beqObj_iff_eq as bs
  | Json.null, Json.bool _ | Json.null, Json.num _ | Json.null, Json.str _
  | Json.null, Json.arr _ | Json.null, Json.obj _
  | Json.bool _, Json.null | Json.bool _, Json.num _ | Json.bool _, Json.str _
  | Json.bool _, Json.arr _ | Json.bool _, Json.obj _
  | Json.num _, Json.null | Json.num _, Json.bool _ | Json.num _, Json.str _
  | Json.num _, Json.arr _ | Json.num _, Json.obj _
  | Json.str _, Json.null | Json.str _, Json.bool _ | Json.str _, Json.num _
  | Json.str _, Json.arr _ | Json.str _, Json.obj _
  | Json.arr _, Json.null | Json.arr _, Json.bool _ | Json.arr _, Json.num _
  | Json.arr _, Json.str _ | Json.arr _, Json.obj _
  | Json.obj _, Json.null | Json.obj _, Json.bool _ | Json.obj _, Json.num _
  | Json.obj _, Json.str _ | Json.obj _, Json.arr _ => by simp [Json.beq]

theorem Json.beqArr_iff_eq : ∀ as bs : List Json, Json.beqArr as bs = true ↔ as = bs
  | [], [] => by simp [Json.beqArr]
  | a :: as, b :: bs => by
      simp [Json.beqArr, Json.beq_iff_eq a b, Json.beqArr_iff_eq as bs]
  | [], _ :: _ => by simp [Json.beqArr]
  | _ :: _, [] => by simp [Json.beqArr]

theorem Json.beqObj_iff_eq :
    ∀ as bs : List (String × Json), Json.beqObj as bs = true ↔ as = bs
  | [], [] => by simp [Json.beqObj]
  | (k, v) :: as, (k2, v2) :: bs => by
      simp [Json.beqObj, Json.beq_iff_eq v v2, Json.beqObj_iff_eq as bs,
        and_assoc]
  | [], _ :: _ => by simp [Json.beqObj]
  | _ :: _, [] => by simp [Json.beqObj]

end

instance : DecidableEq Json := fun a b =>
  decidable_of_iff _ (Json.beq_iff_eq a b)

/-- Python exception classes that the program can raise. -/
inductive PyErr where
  | attributeError
  | typeError
  | iOError
  | calledProcessError (code : Int)
  deriving DecidableEq

/-- Behaviour of the external `nvcc` executable when `subprocess.run` is
invoked: it runs and exits 0, runs and exits non-zero, or is absent
(`FileNotFoundError`). -/
inductive SubprocessOutcome where
  | success
  | failure (code : Int)
  | notFound
  deriving DecidableEq

/-- Python `value.get(key, default)`: defined on dicts, raises
`AttributeError` on any other value. -/
def pyGet (v : Json) (key : String) (dflt : Json) : Except PyErr Json :=
  match v with
  | Json.obj kvs => Except.ok ((kvs.lookup key).getD dflt)
  | _ => Except.error PyErr.attributeError

/-- Python `len(value)`: defined on lists, strings and dicts, raises
`TypeError` on numbers, booleans and `None`. -/
def pyLen (v : Json) : Except PyErr Nat :=
  match v with
  | Json.arr xs => Except.ok xs.length
  | Json.str s => Except.ok s.length
  | Json.obj kvs => Except.ok kvs.length
  | _ => Except.error PyErr.typeError

/-- Python iteration over a value (as done by `enumerate(ops)`): a list
yields its elements, a string its one-character substrings, a dict its
keys; other values raise `TypeError`. -/
def pyIter (v : Json) : Except PyErr (List Json) :=
  match v with
  | Json.arr xs => Except.ok xs
  | Json.str s => Except.ok (s.data.map (fun c => Json.str (String.mk [c])))
  | Json.obj kvs => Except.ok (kvs.map (fun kv => Json.str kv.1))
  | _ => Except.error PyErr.typeError

/-- Python `str()` as used by f-string interpolation. A `str` formats as
itself and the singleton constants use Python's spelling; the textual
format of numbers and containers is abstracted (no claim depends on it). -/
def pyStr (v : Json) : String :=
  match v with
  | Json.str s => s
  | Json.null => "None"
  | Json.bool true => "True"
  | Json.bool false => "False"
  | Json.num q => toString q
  | Json.arr _ => "[...]"
  | Json.obj _ => "\x7b...\x7d"

/-- Stage 1, `parse_workload` (demo.py lines 30-37), applied to the value
`json.load` returned. Mirrors
`ops = data.get("model", {}).get("ops", [])`,
`hardware = data.get("hardware", "unknown")`, and the
`print(... len(ops) ...)` whose `len` call can raise `TypeError`. -/
def parse_workload (data : Json) : Except PyErr (Json × Json) :=
  match pyGet data "model" (Json.obj []) with
  | Except.error e => Except.error e
  | Except.ok model =>
    match pyGet model "ops" (Json.arr []) with
    | Except.error e => Except.error e
    | Except.ok ops =>
      match pyGet data "hardware" (Json.str "unknown") with
      | Except.error e => Except.error e
      | Except.ok hardware =>
        match pyLen ops with
        | Except.error e => Except.error e
        | Except.ok _ => Except.ok (ops, hardware)

/-- One record of the fake trace: `{"op": op, "latency_ms": 1.0 + i * 0.1}`. -/
structure TraceRec where
  op : Json
  latency_ms : ℚ
  deriving DecidableEq

/-- Stable insertion of `a` into a list sorted ascending by `key`:
`a` is placed before the first element whose key is `≥ key a`. -/
def pyInsertByKey (key : α → ℚ) (a : α) : List α → List α
  | [] => [a]
  | b :: l => if key a ≤ key b then a :: b :: l else b :: pyInsertByKey key a l

/-- Python `sorted(l, key=key)`: the stable sort of `l`, ascending by
`key`, modelled as stable insertion sort (extensionally equal to Timsort). -/
def pySortedByKey (key : α → ℚ) : List α → List α
  | [] => []
  | a :: l => pyInsertByKey key a (pySortedByKey key l)

/-- The local `trace` of `profile_workload` (demo.py line 45):
`[{"op": op, "latency_ms": 1.0 + i * 0.1} for i, op in enumerate(ops)]`. -/
def trace_of (ops : List Json) : List TraceRec :=
  ops.enum.map (fun p => TraceRec.mk p.2 (1 + (p.1 : ℚ) * (1 / 10)))

/-- The local `hot` of `profile_workload` (demo.py line 46):
`sorted(trace, key=lambda x: -x["latency_ms"])[:3]`. -/
def hot_of (ops : List Json) : List TraceRec :=
  (pySortedByKey (fun x => -x.latency_ms) (trace_of ops)).take 3

/-- Stage 2, `profile_workload` (demo.py lines 43-50), applied to the
elements of the iterable `ops`; returns `(trace, hot)`. -/
def profile_workload (ops : List Json) : List TraceRec × List TraceRec :=
  (trace_of ops, hot_of ops)

/-- The plan record `{"target": ..., "strategy": "fuse_with_next"}`. -/
structure Plan where
  target : Json
  strategy : String
  deriving DecidableEq

/-- Stage 3, `plan_optimisations` (demo.py lines 56-60):
`target = hot_ops[0]["op"] if hot_ops else "unknown_op"`. -/
def plan_optimisations (hot_ops : List TraceRec) : Plan :=
  match hot_ops with
  | [] => Plan.mk (Json.str "unknown_op") "fuse_with_next"
  | h :: _ => Plan.mk h.op "fuse_with_next"

/-- The f-string kernel source of `generate_kernel` (demo.py lines 69-75),
with `{plan['target']}` interpolated via `pyStr`. -/
def kernelSrc (plan : Plan) : String :=
  "\n#include <cuda_runtime.h>\n__global__ void fused_kernel(float* a, float* b, float* out) \x7b\n    int idx = blockIdx.x * blockDim.x + threadIdx.x;\n    out[idx] = a[idx] * b[idx];  // pretend fused '" ++
    pyStr plan.target ++ "'\n\x7d\n"

/-- Stage 4, `generate_kernel` (demo.py lines 66-77): writes `kernelSrc`
to the fixed relative path `generated_kernel.cu`. The filesystem write is
modelled by returning the (path, contents) pair. -/
def generate_kernel (plan : Plan) : String × String :=
  ("generated_kernel.cu", kernelSrc plan)

/-- The metrics record `{"latency_ms": 0.42, "gflops": 123.4}`. -/
structure Metrics where
  latency_ms : ℚ
  gflops : ℚ
  deriving DecidableEq

/-- Model of `Path.with_suffix` for the relative file names this program uses:
replace the extension after the last dot, or append when there is none. -/
def pathWithSuffix (p suffx : String) : String :=
  let comps := p.splitOn "."
  if comps.length ≤ 1 then p ++ suffx
  else String.intercalate "." comps.dropLast ++ suffx

/-- Stage 5, `compile_and_run` (demo.py lines 83-94). `subprocess.run`
with `check=True` is modelled by `env`: `FileNotFoundError` (absent nvcc)
is caught by the `except` clause, a non-zero exit raises an uncaught
`CalledProcessError`, and in the caught and successful cases the fixed
metrics record is returned. -/
def compile_and_run (kernel_path : String) (env : SubprocessOutcome) :
    Except PyErr Metrics :=
  let bin_path := pathWithSuffix kernel_path ".out"
  let _compile_cmd := "nvcc " ++ kernel_path ++ " -o " ++ bin_path
  match env with
  | SubprocessOutcome.success => Except.ok (Metrics.mk (42 / 100) (1234 / 10))
  | SubprocessOutcome.failure code => Except.error (PyErr.calledProcessError code)
  | SubprocessOutcome.notFound => Except.ok (Metrics.mk (42 / 100) (1234 / 10))

/-- Stage 6, `score` (demo.py lines 100-103): `util = metrics["gflops"] / 312.0`. -/
def score (metrics : Metrics) : ℚ :=
  metrics.gflops / 312

/-- The function `main` (demo.py lines 109-116), applied to the parsed JSON value of
the workload file; returns the final score. A raised exception at any
stage aborts the chain, as in Python. -/
def main (data : Json) (env : SubprocessOutcome) : Except PyErr ℚ :=
  match parse_workload data with
  | Except.error e => Except.error e
  | Except.ok (ops, _hw) =>
    match pyIter ops with
    | Except.error e => Except.error e
    | Except.ok opsElems =>
      let hot_ops := (profile_workload opsElems).2
      let plan := plan_optimisations hot_ops
      let kernel_path := (generate_kernel plan).1
      match compile_and_run kernel_path env with
      | Except.error e => Except.error e
      | Except.ok metrics => Except.ok (score metrics)

/-- Result of running the script from the command line. -/
inductive CliResult where
  | usageExit (msg : String) (code : Nat)
  | ran (r : Except PyErr ℚ)

/-- The main guard block (demo.py lines 118-122): wrong argument arity
prints the usage string and exits with status 1, otherwise `main(sys.argv[1])`
runs; `fs` maps a path to its parsed JSON content (`none` when the file is
unreadable or not valid JSON, which propagates as an uncaught error). -/
def cliEntry (argv : List String) (fs : String → Option Json)
    (env : SubprocessOutcome) : CliResult :=
  if argv.length ≠ 2 then
    CliResult.usageExit "Usage: python demo.py <workload_json>" 1
  else
    match fs (argv.getD 1 "") with
    | none => CliResult.ran (Except.error PyErr.iOError)
    | some data => CliResult.ran (main data env)

/-- The ops list of the end-to-end example workload. -/
def exampleOps : List Json :=
  [Json.str "matmul", Json.str "relu", Json.str "matmul"]

/-- The end-to-end example workload
`{"model": {"ops": ["matmul","relu","matmul"]}, "hardware": "A100"}`. -/
def exampleJson : Json :=
  Json.obj [("model", Json.obj [("ops", Json.arr exampleOps)]),
            ("hardware", Json.str "A100")]


/-- Inserting an element whose key is strictly above every key in the
list appends it at the end. -/
theorem pyInsertByKey_of_forall_lt (key : α → ℚ) (a : α) (m : List α)
    (h : ∀ b ∈ m, key b < key a) :
    pyInsertByKey key a m = m ++ [a] := by
  induction m with
  | nil => rfl
  | cons b l ih =>
      have hb : key b < key a := h b (by simp)
      simp only [pyInsertByKey, if_neg (not_le.mpr hb), List.cons_append,
        List.cons.injEq, true_and]
      exact ih (fun c hc => h c (by simp [hc]))

/-- The ascending stable sort reverses a list whose keys are strictly
decreasing. -/
theorem pySortedByKey_of_pairwise_gt (key : α → ℚ) (l : List α)
    (h : l.Pairwise (fun x y => key y < key x)) :
    pySortedByKey key l = l.reverse := by
  induction l with
  | nil => rfl
  | cons a t ih =>
      rw [List.pairwise_cons] at h
      simp only [pySortedByKey]
      rw [ih h.2, pyInsertByKey_of_forall_lt]
      · simp
      · intro b hb
        exact h.1 b (by simpa using hb)

/-- The fake trace has one record per operation. -/
theorem trace_of_length (ops : List Json) :
    (trace_of ops).length = ops.length := by
  simp [trace_of]

/-- The `i`-th trace record pairs the `i`-th operation with the synthetic
latency `1.0 + i * 0.1`. -/
theorem trace_of_getElem (ops : List Json) (i : Nat) :
    (trace_of ops)[i]? =
      ops[i]?.map (fun op => TraceRec.mk op (1 + (i : ℚ) * (1 / 10))) := by
  cases h : ops[i]? <;>
    simp [trace_of, List.getElem?_map, List.getElem?_enum, h]

/-- Synthetic latencies are strictly increasing along the trace. -/
theorem trace_of_pairwise (ops : List Json) :
    (trace_of ops).Pairwise (fun x y => x.latency_ms < y.latency_ms) := by
  have h1 : (ops.enum.map Prod.fst).Pairwise (· < ·) := by
    rw [List.enum_map_fst]
    exact List.pairwise_lt_range _
  rw [List.pairwise_map] at h1
  rw [trace_of, List.pairwise_map]
  refine h1.imp ?_
  intro p q hpq
  have hq : ((p.1 : ℚ)) < (q.1 : ℚ) := by exact_mod_cast hpq
  simp only
  linarith

/-- Because latencies are strictly increasing, the hot list is the first
three records of the reversed trace. -/
theorem hot_of_eq_reverse_take (ops : List Json) :
    hot_of ops = (trace_of ops).reverse.take 3 := by
  rw [hot_of, pySortedByKey_of_pairwise_gt]
  refine (trace_of_pairwise ops).imp ?_
  intro x y hxy
  exact neg_lt_neg hxy


/-- C1 (counterexample): on the end-to-end example workload the planner
target is not "relu" — the profiler's synthetic latencies are strictly
increasing, so the most recent "matmul" (index 2, latency 1.2) ranks
first among the hot ops and becomes the target. -/
theorem claim_C1_counterexample :
    (plan_optimisations (profile_workload exampleOps).2).target ≠
      Json.str "relu" := by
  have h : (plan_optimisations (profile_workload exampleOps).2).target =
      Json.str "matmul" := by
    norm_num [profile_workload, trace_of, hot_of, pySortedByKey, pyInsertByKey,
      plan_optimisations, exampleOps, List.enum, List.enumFrom]
  rw [h]
  decide

/-- C1 (amended): for the input workload
`{"model": {"ops": ["matmul","relu","matmul"]}, "hardware": "A100"}` the
pipeline reports 3 ops and hardware "A100", the profiler emits three
hot-op records, and the planner's chosen target operation is "matmul"
(the highest-latency op, not "relu"). -/
theorem claim_C1 :
    parse_workload exampleJson =
      Except.ok (Json.arr exampleOps, Json.str "A100")
    ∧ exampleOps.length = 3
    ∧ (profile_workload exampleOps).2.length = 3
    ∧ (plan_optimisations (profile_workload exampleOps).2).target =
        Json.str "matmul" := by
  refine ⟨rfl, rfl, ?_, ?_⟩
  · norm_num [profile_workload, trace_of, hot_of, pySortedByKey, pyInsertByKey,
      exampleOps, List.enum, List.enumFrom]
  · norm_num [profile_workload, trace_of, hot_of, pySortedByKey, pyInsertByKey,
      plan_optimisations, exampleOps, List.enum, List.enumFrom]

/-- C2: on any ops list, `profile_workload` produces one trace record per
operation with synthetic latency `1.0 + 0.1 * index`, and the hot list is
the `min(N, 3)` highest-latency trace records in descending latency order
(equivalently, the first three records of the reversed trace, latencies
being strictly increasing). -/
theorem claim_C2 (ops : List Json) :
    (profile_workload ops).1.length = ops.length
    ∧ (∀ (i : Nat) (op : Json), ops[i]? = some op →
        ((profile_workload ops).1)[i]? =
          some (TraceRec.mk op (1 + (i : ℚ) * (1 / 10))))
    ∧ (profile_workload ops).2 = ((profile_workload ops).1).reverse.take 3
    ∧ (profile_workload ops).2.length = min ops.length 3
    ∧ (profile_workload ops).2.Pairwise
        (fun a b => b.latency_ms < a.latency_ms) := by
  refine ⟨trace_of_length ops, ?_, ?_, ?_, ?_⟩
  · intro i op h
    show (trace_of ops)[i]? = _
    rw [trace_of_getElem, h]
    rfl
  · exact hot_of_eq_reverse_take ops
  · show (hot_of ops).length = _
    rw [hot_of_eq_reverse_take]
    simp [trace_of_length, Nat.min_comm]
  · show (hot_of ops).Pairwise _
    rw [hot_of_eq_reverse_take]
    refine List.Pairwise.sublist (List.take_sublist _ _) ?_
    rw [List.pairwise_reverse]
    exact trace_of_pairwise ops

/-- C2 (witness): instantiated on the example ops at index 1. -/
theorem claim_C2_witness :
    exampleOps[1]? = some (Json.str "relu")
    ∧ (profile_workload exampleOps).1[1]? =
        some (TraceRec.mk (Json.str "relu") (1 + (1 : ℚ) * (1 / 10))) :=
  ⟨rfl, (claim_C2 exampleOps).2.1 1 (Json.str "relu") rfl⟩

/-- C3: the planner targets the first hot op when the hot list is
non-empty and falls back to the sentinel "unknown_op" when it is empty. -/
theorem claim_C3 :
    (plan_optimisations []).target = Json.str "unknown_op"
    ∧ ∀ (r : TraceRec) (l : List TraceRec),
        (plan_optimisations (r :: l)).target = r.op :=
  ⟨rfl, fun _ _ => rfl⟩

/-- C4: when `nvcc` is absent the `FileNotFoundError` is caught inside
`compile_and_run` and the function still returns the metrics record, so
the pipeline can continue to the scoring stage. -/
theorem claim_C4 (kernel_path : String) :
    compile_and_run kernel_path SubprocessOutcome.notFound =
      Except.ok (Metrics.mk (42 / 100) (1234 / 10)) := rfl

/-- C5: any invocation whose argument vector does not have exactly two
entries (program name plus one positional argument) prints the usage
message and exits with status 1, raising no uncaught exception. -/
theorem claim_C5 (argv : List String) (fs : String → Option Json)
    (env : SubprocessOutcome) (h : argv.length ≠ 2) :
    cliEntry argv fs env =
      CliResult.usageExit "Usage: python demo.py <workload_json>" 1 := by
  simp [cliEntry, h]

/-- C5 (witness): invocation with no arguments at all. -/
theorem claim_C5_witness :
    ([] : List String).length ≠ 2
    ∧ cliEntry [] (fun _ => none) SubprocessOutcome.notFound =
        CliResult.usageExit "Usage: python demo.py <workload_json>" 1 :=
  ⟨by decide,
   claim_C5 [] (fun _ => none) SubprocessOutcome.notFound (by decide)⟩

/-- C6: `generate_kernel` always writes to the fixed path
`generated_kernel.cu`, and the file contents embed the plan's target
operation name in the `// pretend fused '...'` comment. -/
theorem claim_C6 (plan : Plan) (name : String)
    (h : plan.target = Json.str name) :
    (generate_kernel plan).1 = "generated_kernel.cu"
    ∧ ∃ s t, (generate_kernel plan).2 =
        s ++ ("// pretend fused '" ++ name ++ "'") ++ t := by
  refine ⟨rfl,
    "\n#include <cuda_runtime.h>\n__global__ void fused_kernel(float* a, float* b, float* out) \x7b\n    int idx = blockIdx.x * blockDim.x + threadIdx.x;\n    out[idx] = a[idx] * b[idx];  ",
    "\n\x7d\n", ?_⟩
  show kernelSrc plan = _
  rw [kernelSrc, h]
  show "\n#include <cuda_runtime.h>\n__global__ void fused_kernel(float* a, float* b, float* out) \x7b\n    int idx = blockIdx.x * blockDim.x + threadIdx.x;\n    out[idx] = a[idx] * b[idx];  // pretend fused '" ++
      pyStr (Json.str name) ++ "'\n\x7d\n" = _
  rw [show pyStr (Json.str name) = name from rfl]
  rw [show ("\n#include <cuda_runtime.h>\n__global__ void fused_kernel(float* a, float* b, float* out) \x7b\n    int idx = blockIdx.x * blockDim.x + threadIdx.x;\n    out[idx] = a[idx] * b[idx];  // pretend fused '" : String) =
    "\n#include <cuda_runtime.h>\n__global__ void fused_kernel(float* a, float* b, float* out) \x7b\n    int idx = blockIdx.x * blockDim.x + threadIdx.x;\n    out[idx] = a[idx] * b[idx];  " ++
      "// pretend fused '" from rfl]
  rw [show ("'\n\x7d\n" : String) = "'" ++ "\n\x7d\n" from rfl]
  simp only [String.append_assoc]

/-- C6 (witness): instantiated on the plan targeting "matmul". -/
theorem claim_C6_witness :
    (Plan.mk (Json.str "matmul") "fuse_with_next").target = Json.str "matmul"
    ∧ ((generate_kernel (Plan.mk (Json.str "matmul") "fuse_with_next")).1 =
        "generated_kernel.cu"
      ∧ ∃ s t,
          (generate_kernel (Plan.mk (Json.str "matmul") "fuse_with_next")).2 =
            s ++ ("// pretend fused '" ++ "matmul" ++ "'") ++ t) :=
  ⟨rfl, claim_C6 (Plan.mk (Json.str "matmul") "fuse_with_next") "matmul" rfl⟩

/-- C7 (counterexample): on the well-formed JSON object
`{"model": 5}` the code raises `AttributeError` (calling `.get` on the
int) instead of returning the empty ops list, so the claim's universal
quantification over all well-formed JSON objects fails. -/
theorem claim_C7_counterexample :
    parse_workload (Json.obj [("model", Json.num 5)]) =
      Except.error PyErr.attributeError := rfl

/-- C7 (amended): for every JSON object input whose `model` field (after
defaulting to `{}`) is itself an object and whose `model.ops` field
(after defaulting to `[]`) is an array, `parse_workload` returns that
array as the ops list and the top-level `hardware` value, defaulting to
the empty list and the literal string "unknown" when absent. -/
theorem claim_C7 (kvs mkvs : List (String × Json)) (ops : List Json)
    (hw : Json)
    (hm : (kvs.lookup "model").getD (Json.obj []) = Json.obj mkvs)
    (ho : (mkvs.lookup "ops").getD (Json.arr []) = Json.arr ops)
    (hh : (kvs.lookup "hardware").getD (Json.str "unknown") = hw) :
    parse_workload (Json.obj kvs) = Except.ok (Json.arr ops, hw) := by
  simp [parse_workload, pyGet, pyLen, hm, ho, hh]

/-- C7 (witness): instantiated on the end-to-end example workload, where
all fields are present. -/
theorem claim_C7_witness :
    parse_workload exampleJson =
      Except.ok (Json.arr exampleOps, Json.str "A100") :=
  claim_C7
    [("model", Json.obj [("ops", Json.arr exampleOps)]),
     ("hardware", Json.str "A100")]
    [("ops", Json.arr exampleOps)] exampleOps (Json.str "A100") rfl rfl rfl

/-- C8: the score stage returns exactly `gflops / 312.0`; determinism is
immediate since `score` is a function of the metrics record alone. -/
theorem claim_C8 (metrics : Metrics) :
    score metrics = metrics.gflops / 312 := rfl

/-- C9: `compile_and_run` returns the fixed metrics record for every
kernel path both when the compiler ran and when it was skipped, and every
normally-terminating run of the pipeline ends with the same final score
`123.4 / 312.0` regardless of the input workload. -/
theorem claim_C9 :
    (∀ kernel_path : String,
        compile_and_run kernel_path SubprocessOutcome.notFound =
          Except.ok (Metrics.mk (42 / 100) (1234 / 10))
        ∧ compile_and_run kernel_path SubprocessOutcome.success =
          Except.ok (Metrics.mk (42 / 100) (1234 / 10)))
    ∧ ∀ (data : Json) (env : SubprocessOutcome) (s : ℚ),
        main data env = Except.ok s → s = 1234 / 10 / 312 := by
  refine ⟨fun _ => ⟨rfl, rfl⟩, ?_⟩
  intro data env s h
  unfold main at h
  split at h
  · simp at h
  · split at h
    · simp at h
    · dsimp only at h
      split at h
      · simp at h
      · rename_i metrics heq
        cases env with
        | success =>
            simp [compile_and_run] at heq
            simp [← heq, score] at h
            exact h.symm
        | failure code =>
            simp [compile_and_run] at heq
        | notFound =>
            simp [compile_and_run] at heq
            simp [← heq, score] at h
            exact h.symm

/-- C9 (witness): the example workload with `nvcc` absent terminates
normally with exactly that score. -/
theorem claim_C9_witness :
    main exampleJson SubprocessOutcome.notFound =
      Except.ok ((1234 : ℚ) / 10 / 312)
    ∧ ((1234 : ℚ) / 10 / 312) = 1234 / 10 / 312 :=
  ⟨rfl,
   claim_C9.2 exampleJson SubprocessOutcome.notFound ((1234 : ℚ) / 10 / 312)
     rfl⟩

/-- C10: for every non-empty ops list the planner's target is the last
operation: latencies `1.0 + 0.1 * i` strictly increase with the index, so
the hottest record is the one of the last operation and ties never
occur. -/
theorem claim_C10 (ops : List Json) (h : ops ≠ []) :
    (plan_optimisations (profile_workload ops).2).target = ops.getLast h := by
  have htr : trace_of ops ≠ [] := by
    intro hc
    apply h
    have hlen := congrArg List.length hc
    rw [trace_of_length] at hlen
    simpa using List.length_eq_zero.mp hlen
  obtain ⟨r, rest, hrev⟩ : ∃ r rest, (trace_of ops).reverse = r :: rest := by
    cases hrevc : (trace_of ops).reverse with
    | nil => exact absurd (by simpa using hrevc) htr
    | cons r rest => exact ⟨r, rest, rfl⟩
  have hhot : (profile_workload ops).2 = r :: rest.take 2 := by
    show hot_of ops = _
    rw [hot_of_eq_reverse_take, hrev]
    rfl
  rw [hhot]
  show r.op = ops.getLast h
  have h1 : (trace_of ops).getLast? = some r := by
    rw [← List.head?_reverse, hrev]
    rfl
  rw [List.getLast?_eq_getElem?, trace_of_length,
    trace_of_getElem ops (ops.length - 1)] at h1
  have h2 : ops[ops.length - 1]? = some (ops.getLast h) := by
    rw [← List.getLast?_eq_getElem?]
    exact List.getLast?_eq_getLast ops h
  rw [h2] at h1
  simp only [Option.map_some', Option.some.injEq] at h1
  rw [← h1]

/-- C10 (witness): instantiated on the example ops, whose last element is
the second "matmul". -/
theorem claim_C10_witness :
    exampleOps ≠ []
    ∧ (plan_optimisations (profile_workload exampleOps).2).target =
        exampleOps.getLast (by simp [exampleOps]) :=
  ⟨by simp [exampleOps], claim_C10 exampleOps (by simp [exampleOps])⟩

end Demo
